import Mathlib

/-!
Verification of the RAG chatbot glue code (`main.py`).

The program is a single sequential script: `load_config` reads
`config.json`, `setup_rag_system` optionally builds a retrieval chain
over a knowledge file, and `main` runs an interactive read loop.  We
embed it shallowly: the environment (config-file state, filesystem,
index-build outcome, per-query answer outcome, stdin lines) is a
`World` record, and the program is a pure function from a `World` to
the list of observable events it produces.
-/

namespace RagChatbot

/-- Error raised by `load_config`: `FileNotFoundError` from `open`, or
`json.JSONDecodeError` from `json.load`. -/
inductive LoadErr
  | fileNotFound
  | jsonDecodeError
deriving DecidableEq, Repr

/-- The `"data"` section of `config.json`; a field is `none` when the key
is absent from the document. -/
structure DataSec where
  knowledge_file : Option String
deriving DecidableEq, Repr

/-- The `"rag"` section of `config.json`. -/
structure RagSec where
  chunk_size : Option Nat
  chunk_overlap : Option Nat
  similarity_search_k : Option Nat
deriving DecidableEq, Repr

/-- The `"openai"` section of `config.json`.  `temperature` is an opaque
scalar the glue code only passes through, modelled as `Int`. -/
structure OpenAISec where
  api_key : Option String
  embedding_model : Option String
  model : Option String
  temperature : Option Int
deriving DecidableEq, Repr

/-- A parsed configuration document.  Each section is `none` when the
top-level key is absent. -/
structure ConfigDoc where
  dataSec : Option DataSec
  ragSec : Option RagSec
  openaiSec : Option OpenAISec
deriving DecidableEq, Repr

/-- State of the `config.json` file on disk: missing, present but not
valid JSON, or present with a parsed document. -/
inductive ConfigFileState
  | missing
  | malformed
  | valid (doc : ConfigDoc)
deriving DecidableEq, Repr

/-- Function `load_config` (main.py lines 10-13): `open` raises
`FileNotFoundError` when the file is missing, `json.load` raises
`JSONDecodeError` on invalid content, and otherwise the parsed document
is returned unchanged. -/
def load_config : ConfigFileState → Except LoadErr ConfigDoc
  | .missing => .error .fileNotFound
  | .malformed => .error .jsonDecodeError
  | .valid doc => .ok doc

/-- Exceptions that can escape `setup_rag_system` or the degraded-mode
LLM construction: a `KeyError` from a subscript on a missing key, or any
other exception (e.g. an embedding-provider failure), carrying its
`str(e)` message. -/
inductive PyExc
  | keyError (k : String)
  | other (msg : String)
deriving DecidableEq, Repr

/-- Python `str(e)` for the exceptions in `PyExc`; a `KeyError` on key
`k` renders as `k` wrapped in single quotes (written `\x27` here). -/
def excMsg : PyExc → String
  | .keyError k => "\x27" ++ k ++ "\x27"
  | .other m => m

/-- Python dictionary subscript `d[k]`: the value when the key is
present, `KeyError(k)` otherwise. -/
def pyGet {α : Type} (o : Option α) (k : String) : Except PyExc α :=
  match o with
  | some v => Except.ok v
  | none => Except.error (PyExc.keyError k)

/-- The environment of one run: the config file, `os.path.exists` and
file reads, the outcome of embedding/index construction
(`FAISS.from_documents`), the outcome of answering a query (`qa.run`
when the first argument is `true`, `llm.predict` when `false`), and the
lines available on standard input (end of list = end of stream). -/
structure World where
  configFile : ConfigFileState
  fileExists : String → Bool
  readFile : String → String
  indexBuild : String → Except String Unit
  ans : Bool → String → Except String String
  inputs : List String

/-- Observable events of a run: printed lines (identified by their
role) and Answerer invocations. -/
inductive Ev
  | banner
  | configLoaded
  | errConfigNotFound
  | errConfigInvalid
  | errGeneric (msg : String)
  | warnKnowledgeMissing (path : String)
  | ragInitOk
  | ragUnavailable
  | instructions
  | ragCall (q : String)
  | llmCall (q : String)
  | botAnswer (s : String)
  | turnError (msg : String)
  | bye
deriving DecidableEq, Repr

/-- The lookup `config["data"]["knowledge_file"]` (main.py line 18):
each subscript can raise `KeyError`. -/
def getKnowledgeFile (c : ConfigDoc) : Except PyExc String := do
  let ds ← pyGet c.dataSec "data"
  pyGet ds.knowledge_file "knowledge_file"

/-- The pipeline construction of `setup_rag_system` once the knowledge
file was found (main.py lines 23-54): read the file, build the splitter
(`chunk_size`, `chunk_overlap`), the embeddings (`embedding_model`,
`api_key`), the vector store (whose construction may fail), the
retriever (`similarity_search_k`) and the chat LLM (`model`,
`temperature`, `api_key`), in source order. -/
def buildPipeline (w : World) (c : ConfigDoc) (kf : String) : Except PyExc Unit := do
  let data := w.readFile kf
  let rag ← pyGet c.ragSec "rag"
  let _chunk_size ← pyGet rag.chunk_size "chunk_size"
  let _chunk_overlap ← pyGet rag.chunk_overlap "chunk_overlap"
  let oa ← pyGet c.openaiSec "openai"
  let _embedding_model ← pyGet oa.embedding_model "embedding_model"
  let _api_key ← pyGet oa.api_key "api_key"
  let _vectorstore ← (match w.indexBuild data with
    | .ok u => Except.ok u
    | .error m => Except.error (PyExc.other m))
  let _k ← pyGet rag.similarity_search_k "similarity_search_k"
  let _model ← pyGet oa.model "model"
  let _temperature ← pyGet oa.temperature "temperature"
  let _api_key2 ← pyGet oa.api_key "api_key"
  pure ()

/-- Function `setup_rag_system` (main.py lines 15-56).  Reads
`config["data"]["knowledge_file"]`; when the path does not exist it
prints a warning and returns `(None, None)`; otherwise it builds the
full pipeline, propagating any exception.  Returns the printed events
paired with the `(qa, llm)` result (handles modelled as `Unit`). -/
def setup_rag_system (w : World) (c : ConfigDoc) :
    List Ev × Except PyExc (Option Unit × Option Unit) :=
  match getKnowledgeFile c with
  | .error e => ([], .error e)
  | .ok kf =>
    if w.fileExists kf then
      match buildPipeline w c kf with
      | .error e => ([], .error e)
      | .ok _ => ([], .ok (some (), some ()))
    else
      ([Ev.warnKnowledgeMissing kf], .ok (none, none))

/-- Python `str.strip()`: remove leading and trailing whitespace
characters. -/
def pyStrip (s : String) : String :=
  ⟨((s.data.dropWhile Char.isWhitespace).reverse.dropWhile Char.isWhitespace).reverse⟩

/-- Python `str.lower()`: lowercase every character. -/
def pyLower (s : String) : String :=
  ⟨s.data.map Char.toLower⟩

/-- The exit-keyword test (main.py line 90):
`query.lower() in ['quit', 'exit', 'keluar']`. -/
def isExit (query : String) : Bool :=
  ["quit", "exit", "keluar"].contains (pyLower query)

/-- One answered turn (main.py lines 98-110): dispatch to `qa.run` when
the RAG chain is available, else `llm.predict`; print the result, or
catch the exception and print its message inline. -/
def turnEvents (ans : Bool → String → Except String String)
    (useRag : Bool) (query : String) : List Ev :=
  match ans useRag query with
  | .ok r =>
    (if useRag then [Ev.ragCall query] else [Ev.llmCall query]) ++ [Ev.botAnswer r]
  | .error e =>
    (if useRag then [Ev.ragCall query] else [Ev.llmCall query]) ++ [Ev.turnError e]

/-- The session loop (main.py lines 85-110) over the remaining stdin
lines.  Each line is stripped; an exit keyword prints the farewell and
breaks (`true`); an empty query is skipped; otherwise the turn runs and
the loop continues.  Exhausting the list is `input()` raising
`EOFError`, reported as `false`. -/
def sessionLoop (ans : Bool → String → Except String String) (useRag : Bool) :
    List String → List Ev × Bool
  | [] => ([], false)
  | raw :: rest =>
    let query := pyStrip raw
    if isExit query then
      ([Ev.bye], true)
    else if query = "" then
      sessionLoop ans useRag rest
    else
      let next := sessionLoop ans useRag rest
      (turnEvents ans useRag query ++ next.1, next.2)

/-- Python `str(e)` for the `EOFError` that `input()` raises at end of
stream. -/
def eofMsg : String := "EOF when reading a line"

/-- Run the session loop and, when it ended by end-of-stream rather than
an exit keyword, let the `EOFError` reach `main`'s generic handler,
which prints the message. -/
def loopAndFinish (w : World) (useRag : Bool) : List Ev :=
  let r := sessionLoop w.ans useRag w.inputs
  r.1 ++ (if r.2 then [] else [Ev.errGeneric eofMsg])

/-- The degraded-mode LLM construction (main.py lines 76-80): when `qa`
is `None`, `main` rebuilds the plain chat model, re-reading
`config["openai"]["model"]`, `["temperature"]` and `["api_key"]`; each
subscript can raise `KeyError`. -/
def setupPlainLLM (c : ConfigDoc) : Except PyExc Unit := do
  let oa ← pyGet c.openaiSec "openai"
  let _model ← pyGet oa.model "model"
  let _temperature ← pyGet oa.temperature "temperature"
  let _api_key ← pyGet oa.api_key "api_key"
  pure ()

/-- Function `main` (main.py lines 58-117) as the event trace of a run: banner,
config load with its two dedicated exception handlers, RAG setup, the
degraded-mode LLM construction (re-reading the `"openai"` keys) when
`qa` is `None`, the instruction line, then the session loop; any other
exception reaches the generic handler, which prints its message. -/
def mainRun (w : World) : List Ev :=
  Ev.banner ::
  match load_config w.configFile with
  | .error .fileNotFound => [Ev.errConfigNotFound]
  | .error .jsonDecodeError => [Ev.errConfigInvalid]
  | .ok config =>
    Ev.configLoaded ::
    match setup_rag_system w config with
    | (evs, .error e) => evs ++ [Ev.errGeneric (excMsg e)]
    | (evs, .ok (qa, _llm)) =>
      evs ++
      match qa with
      | some _ => Ev.ragInitOk :: Ev.instructions :: loopAndFinish w true
      | none =>
        Ev.ragUnavailable ::
        match setupPlainLLM config with
        | .error e => [Ev.errGeneric (excMsg e)]
        | .ok _ => Ev.instructions :: loopAndFinish w false

/-! ### Helper lemmas -/

/-- The empty string is not an exit keyword. -/
lemma isExit_empty : isExit "" = false := by decide

/-- `setup_rag_system` prints at most the knowledge-file warning: no
Answerer-call event ever appears among its events. -/
lemma setup_rag_system_no_call (w : World) (c : ConfigDoc) (q : String) :
    Ev.ragCall q ∉ (setup_rag_system w c).1 ∧ Ev.llmCall q ∉ (setup_rag_system w c).1 := by
  unfold setup_rag_system
  cases getKnowledgeFile c with
  | error e => simp
  | ok kf =>
    by_cases hex : w.fileExists kf
    · cases hbp : buildPipeline w c kf <;> simp [hex, hbp]
    · simp [hex]

/-- In plain-LLM mode the session loop never emits a retrieval call. -/
lemma sessionLoop_plain_no_rag (ans : Bool → String → Except String String) :
    ∀ (inputs : List String) (q : String), Ev.ragCall q ∉ (sessionLoop ans false inputs).1
  | [], _ => by simp [sessionLoop]
  | raw :: rest, q => by
    by_cases hx : isExit (pyStrip raw)
    · simp [sessionLoop, hx]
    · by_cases he : pyStrip raw = ""
      · simpa [sessionLoop, hx, he] using sessionLoop_plain_no_rag ans rest q
      · have ih := sessionLoop_plain_no_rag ans rest q
        cases hr : ans false (pyStrip raw) <;>
          simp [sessionLoop, hx, he, turnEvents, hr, ih]

/-- When no input line is an exit keyword, the session loop ends by
exhausting the stream, never by `break`. -/
lemma sessionLoop_snd_false (ans : Bool → String → Except String String) (useRag : Bool) :
    ∀ (inputs : List String), (∀ raw ∈ inputs, isExit (pyStrip raw) = false) →
      (sessionLoop ans useRag inputs).2 = false
  | [], _ => by simp [sessionLoop]
  | raw :: rest, h => by
    have hx : isExit (pyStrip raw) = false := h raw (by simp)
    have ih := sessionLoop_snd_false ans useRag rest (fun r hr => h r (by simp [hr]))
    by_cases he : pyStrip raw = "" <;> simp [sessionLoop, hx, he, ih, isExit_empty]

/-! ### Claims -/

/-- C1: for every non-empty, non-exit user input in the session loop,
an exception raised while producing the answer is caught at the turn
level, displayed as an inline error message, and the loop continues
with the remaining inputs; the per-turn failure never terminates the
loop. -/
theorem perTurnErrorCaught (ans : Bool → String → Except String String) (useRag : Bool)
    (raw : String) (rest : List String) (e : String)
    (hne : pyStrip raw ≠ "") (hexit : isExit (pyStrip raw) = false)
    (herr : ans useRag (pyStrip raw) = .error e) :
    sessionLoop ans useRag (raw :: rest) =
      ((if useRag then [Ev.ragCall (pyStrip raw)] else [Ev.llmCall (pyStrip raw)]) ++
        Ev.turnError e :: (sessionLoop ans useRag rest).1,
       (sessionLoop ans useRag rest).2) := by
  simp [sessionLoop, hexit, hne, turnEvents, herr]

/-- Witness for C1 at the input "hello" with a failing Answerer. -/
theorem perTurnErrorCaught_witness :
    sessionLoop (fun _ _ => Except.error "boom") false ("hello" :: ["next"]) =
      ((if false then [Ev.ragCall (pyStrip "hello")] else [Ev.llmCall (pyStrip "hello")]) ++
        Ev.turnError "boom" :: (sessionLoop (fun _ _ => Except.error "boom") false ["next"]).1,
       (sessionLoop (fun _ _ => Except.error "boom") false ["next"]).2) :=
  perTurnErrorCaught (fun _ _ => Except.error "boom") false "hello" ["next"] "boom"
    (by decide) (by decide) rfl

/-- C2: exit-keyword recognition is case-insensitive over the fixed set
quit/exit/keluar: any input whose stripped, lowercased form is one of
the three words ends the loop with the farewell message, and no
Answerer call is made for that input. -/
theorem exitKeywordTerminates (ans : Bool → String → Except String String) (useRag : Bool)
    (raw : String) (rest : List String)
    (h : pyLower (pyStrip raw) = "quit" ∨ pyLower (pyStrip raw) = "exit" ∨
      pyLower (pyStrip raw) = "keluar") :
    sessionLoop ans useRag (raw :: rest) = ([Ev.bye], true) ∧
    ∀ q, Ev.ragCall q ∉ (sessionLoop ans useRag (raw :: rest)).1 ∧
      Ev.llmCall q ∉ (sessionLoop ans useRag (raw :: rest)).1 := by
  have hx : isExit (pyStrip raw) = true := by
    unfold isExit
    rcases h with h | h | h <;> rw [h] <;> decide
  have heq : sessionLoop ans useRag (raw :: rest) = ([Ev.bye], true) := by
    simp [sessionLoop, hx]
  refine ⟨heq, fun q => ?_⟩
  rw [heq]
  simp

/-- Witness for C2 at the input "QUIT" with a pending further line. -/
theorem exitKeywordTerminates_witness :
    sessionLoop (fun _ _ => Except.ok "a") true ("QUIT" :: ["x"]) = ([Ev.bye], true) ∧
    Ev.ragCall "x" ∉ (sessionLoop (fun _ _ => Except.ok "a") true ("QUIT" :: ["x"])).1 :=
  ⟨(exitKeywordTerminates (fun _ _ => Except.ok "a") true "QUIT" ["x"] (Or.inl (by decide))).1,
   ((exitKeywordTerminates (fun _ _ => Except.ok "a") true "QUIT" ["x"]
      (Or.inl (by decide))).2 "x").1⟩

/-- C4: the config loader errors with `FileNotFoundError` on a missing
file and `JSONDecodeError` on invalid content, and returns every valid
document unchanged. -/
theorem load_config_spec :
    load_config ConfigFileState.missing = Except.error LoadErr.fileNotFound ∧
    load_config ConfigFileState.malformed = Except.error LoadErr.jsonDecodeError ∧
    ∀ d : ConfigDoc, load_config (ConfigFileState.valid d) = Except.ok d :=
  ⟨rfl, rfl, fun _ => rfl⟩

/-- C5: configuration errors are fatal to startup: each category prints
its fixed message and the run ends at once, with no prompt shown, no
query read and no session-loop event. -/
theorem configErrorsFatal (w : World) :
    (w.configFile = ConfigFileState.missing →
      mainRun w = [Ev.banner, Ev.errConfigNotFound]) ∧
    (w.configFile = ConfigFileState.malformed →
      mainRun w = [Ev.banner, Ev.errConfigInvalid]) := by
  constructor <;> intro h <;> simp [mainRun, h, load_config]

/-- C8: an input that strips to the empty string leaves the loop
running with no Answerer call: the run is exactly the run on the
remaining inputs. -/
theorem emptyInputSkipped (ans : Bool → String → Except String String) (useRag : Bool)
    (raw : String) (rest : List String) (h : pyStrip raw = "") :
    sessionLoop ans useRag (raw :: rest) = sessionLoop ans useRag rest := by
  simp [sessionLoop, h, isExit_empty]

/-- Witness for C8 at a whitespace-only input. -/
theorem emptyInputSkipped_witness :
    sessionLoop (fun _ _ => Except.ok "a") true ("   " :: ["x"]) =
      sessionLoop (fun _ _ => Except.ok "a") true ["x"] :=
  emptyInputSkipped (fun _ _ => Except.ok "a") true "   " ["x"] (by decide)

/-- A configuration document with every key the glue code reads. -/
def docFull : ConfigDoc :=
  { dataSec := some { knowledge_file := some "kb.txt" },
    ragSec := some { chunk_size := some 200, chunk_overlap := some 50,
                     similarity_search_k := some 3 },
    openaiSec := some { api_key := some "sk", embedding_model := some "emb",
                        model := some "gpt", temperature := some 0 } }

/-- A valid document with no "data" section. -/
def docNoData : ConfigDoc :=
  { dataSec := none, ragSec := docFull.ragSec, openaiSec := docFull.openaiSec }

/-- A valid document with no "rag" section. -/
def docNoRag : ConfigDoc :=
  { dataSec := docFull.dataSec, ragSec := none, openaiSec := docFull.openaiSec }

/-- C3: when setup returned a disabled-RAG indicator (`qa` is `None`),
the whole run makes no retrieval call, and every answered turn of the
plain-mode loop goes through `llm.predict`; the mode is fixed by the
`useRag` flag chosen once at startup. -/
theorem ragDisabledPlainOnly (w : World) (c : ConfigDoc) (l : Option Unit) (evs : List Ev)
    (hcfg : load_config w.configFile = .ok c)
    (hsetup : setup_rag_system w c = (evs, .ok (none, l))) :
    (∀ q, Ev.ragCall q ∉ mainRun w) ∧
    (∀ raw rest r, w.ans false (pyStrip raw) = .ok r → isExit (pyStrip raw) = false →
      pyStrip raw ≠ "" →
      sessionLoop w.ans false (raw :: rest) =
        (Ev.llmCall (pyStrip raw) :: Ev.botAnswer r :: (sessionLoop w.ans false rest).1,
         (sessionLoop w.ans false rest).2)) := by
  constructor
  · intro q
    have hev : Ev.ragCall q ∉ evs := by
      have h := (setup_rag_system_no_call w c q).1
      rw [hsetup] at h
      exact h
    have hloop := sessionLoop_plain_no_rag w.ans w.inputs q
    simp only [mainRun, hcfg, hsetup]
    cases hpl : setupPlainLLM c with
    | error e => simp [hev]
    | ok u =>
      simp [hev, loopAndFinish, hloop]
  · intro raw rest r hok hx he
    simp [sessionLoop, hx, he, turnEvents, hok]

/-- Witness for C3: a run over a valid config whose knowledge file is
absent makes no retrieval call for its one query. -/
def w3 : World :=
  { configFile := .valid docFull, fileExists := fun _ => false, readFile := fun _ => "",
    indexBuild := fun _ => .ok (), ans := fun _ _ => .ok "yo", inputs := ["hi"] }

/-- Witness for C3 at the query "hi". -/
theorem ragDisabledPlainOnly_witness : Ev.ragCall "hi" ∉ mainRun w3 :=
  (ragDisabledPlainOnly w3 docFull none [Ev.warnKnowledgeMissing "kb.txt"] rfl rfl).1 "hi"

/-- Witness world for C5: the config file is missing. -/
def w5a : World :=
  { configFile := .missing, fileExists := fun _ => true, readFile := fun _ => "",
    indexBuild := fun _ => .ok (), ans := fun _ _ => .ok "yo", inputs := ["hi"] }

/-- Witness world for C5: the config file is malformed. -/
def w5b : World := { w5a with configFile := .malformed }

/-- Witness for C5 at a missing and at a malformed config file. -/
theorem configErrorsFatal_witness :
    mainRun w5a = [Ev.banner, Ev.errConfigNotFound] ∧
    mainRun w5b = [Ev.banner, Ev.errConfigInvalid] :=
  ⟨(configErrorsFatal w5a).1 rfl, (configErrorsFatal w5b).2 rfl⟩

/-- C6: an absent knowledge file is an explicit absent signal, not an
error: setup prints the warning and returns `(None, None)`, and the run
continues into the session loop in plain-LLM mode. -/
theorem knowledgeAbsentDegrades (w : World) (c : ConfigDoc) (ds : DataSec) (kf : String)
    (oa : OpenAISec) (m : String) (t : Int) (k : String)
    (hcfg : load_config w.configFile = .ok c)
    (hd : c.dataSec = some ds) (hk : ds.knowledge_file = some kf)
    (hex : w.fileExists kf = false)
    (ho : c.openaiSec = some oa) (hm : oa.model = some m)
    (ht : oa.temperature = some t) (hak : oa.api_key = some k) :
    setup_rag_system w c = ([Ev.warnKnowledgeMissing kf], Except.ok (none, none)) ∧
    mainRun w = [Ev.banner, Ev.configLoaded, Ev.warnKnowledgeMissing kf,
      Ev.ragUnavailable, Ev.instructions] ++ loopAndFinish w false := by
  have hs : setup_rag_system w c = ([Ev.warnKnowledgeMissing kf], Except.ok (none, none)) := by
    simp [setup_rag_system, getKnowledgeFile, pyGet, hd, hk, hex, bind, Except.bind]
  have hpl : setupPlainLLM c = Except.ok () := by
    simp [setupPlainLLM, pyGet, ho, hm, ht, hak, bind, Except.bind, pure, Except.pure]
  exact ⟨hs, by simp [mainRun, hcfg, hs, hpl]⟩

/-- Witness world for C6: valid full config, knowledge file absent. -/
def w6 : World :=
  { configFile := .valid docFull, fileExists := fun _ => false, readFile := fun _ => "",
    indexBuild := fun _ => .ok (), ans := fun _ _ => .ok "yo", inputs := ["hi"] }

/-- Witness for C6 at the absent path "kb.txt". -/
theorem knowledgeAbsentDegrades_witness :
    setup_rag_system w6 docFull = ([Ev.warnKnowledgeMissing "kb.txt"], Except.ok (none, none)) ∧
    mainRun w6 = [Ev.banner, Ev.configLoaded, Ev.warnKnowledgeMissing "kb.txt",
      Ev.ragUnavailable, Ev.instructions] ++ loopAndFinish w6 false :=
  knowledgeAbsentDegrades w6 docFull { knowledge_file := some "kb.txt" } "kb.txt"
    { api_key := some "sk", embedding_model := some "emb",
      model := some "gpt", temperature := some 0 } "gpt" 0 "sk"
    rfl rfl rfl rfl rfl rfl rfl rfl

/-- C7: when the knowledge file is present and index construction
fails, the failure propagates out of setup as a fatal error: the run
prints the generic error and the session loop is never entered. -/
theorem indexFailureFatal (w : World) (c : ConfigDoc) (ds : DataSec) (kf : String)
    (rag : RagSec) (oa : OpenAISec) (cs co : Nat) (em ak : String) (msg : String)
    (hcfg : load_config w.configFile = .ok c)
    (hd : c.dataSec = some ds) (hk : ds.knowledge_file = some kf)
    (hex : w.fileExists kf = true)
    (hr : c.ragSec = some rag) (hcs : rag.chunk_size = some cs)
    (hco : rag.chunk_overlap = some co)
    (ho : c.openaiSec = some oa) (hem : oa.embedding_model = some em)
    (hak : oa.api_key = some ak)
    (hidx : w.indexBuild (w.readFile kf) = .error msg) :
    setup_rag_system w c = ([], Except.error (PyExc.other msg)) ∧
    mainRun w = [Ev.banner, Ev.configLoaded, Ev.errGeneric msg] ∧
    Ev.instructions ∉ mainRun w := by
  have hs : setup_rag_system w c = ([], Except.error (PyExc.other msg)) := by
    simp [setup_rag_system, getKnowledgeFile, buildPipeline, pyGet, hd, hk, hex, hr, hcs,
      hco, ho, hem, hak, hidx, bind, Except.bind]
  have hmr : mainRun w = [Ev.banner, Ev.configLoaded, Ev.errGeneric msg] := by
    simp [mainRun, hcfg, hs, excMsg]
  exact ⟨hs, hmr, by rw [hmr]; simp⟩

/-- Witness world for C7: file present, index construction fails. -/
def w7 : World :=
  { configFile := .valid docFull, fileExists := fun _ => true, readFile := fun _ => "text",
    indexBuild := fun _ => .error "api down", ans := fun _ _ => .ok "yo", inputs := ["hi"] }

/-- Witness for C7 at the failure message "api down". -/
theorem indexFailureFatal_witness :
    setup_rag_system w7 docFull = ([], Except.error (PyExc.other "api down")) ∧
    mainRun w7 = [Ev.banner, Ev.configLoaded, Ev.errGeneric "api down"] ∧
    Ev.instructions ∉ mainRun w7 :=
  indexFailureFatal w7 docFull { knowledge_file := some "kb.txt" } "kb.txt"
    { chunk_size := some 200, chunk_overlap := some 50, similarity_search_k := some 3 }
    { api_key := some "sk", embedding_model := some "emb",
      model := some "gpt", temperature := some 0 } 200 50 "emb" "sk" "api down"
    rfl rfl rfl rfl rfl rfl rfl rfl rfl rfl rfl

/-- C9: the loop has exactly the outcomes break and end-of-stream: on
an exhausted input stream it stops at once, and when no input is an
exit keyword it ends by end-of-stream, whose `EOFError` is reported by
the top-level handler after the loop's events. -/
theorem eofTerminatesLoop (w : World) (useRag : Bool) :
    sessionLoop w.ans useRag [] = ([], false) ∧
    ((∀ raw ∈ w.inputs, isExit (pyStrip raw) = false) →
      loopAndFinish w useRag =
        (sessionLoop w.ans useRag w.inputs).1 ++ [Ev.errGeneric eofMsg]) := by
  refine ⟨by simp [sessionLoop], fun h => ?_⟩
  have h2 := sessionLoop_snd_false w.ans useRag w.inputs h
  simp [loopAndFinish, h2]

/-- Witness world for C9: one ordinary input, then end of stream. -/
def w9 : World :=
  { configFile := .valid docFull, fileExists := fun _ => true, readFile := fun _ => "text",
    indexBuild := fun _ => .ok (), ans := fun _ _ => .ok "yo", inputs := ["hi"] }

/-- Witness for C9: the run ends via the end-of-stream error event. -/
theorem eofTerminatesLoop_witness :
    sessionLoop w9.ans true [] = ([], false) ∧
    loopAndFinish w9 true = (sessionLoop w9.ans true w9.inputs).1 ++ [Ev.errGeneric eofMsg] :=
  ⟨(eofTerminatesLoop w9 true).1, (eofTerminatesLoop w9 true).2 (by decide)⟩

/-- C10: a valid document lacking a required key is neither a NotFound
nor a ParseError: the `KeyError` reaches the generic handler, which
prints its message, and the session loop is never entered. -/
theorem missingKeyGenericError (w : World) (c : ConfigDoc)
    (hcfg : load_config w.configFile = .ok c) :
    (c.dataSec = none →
      mainRun w = [Ev.banner, Ev.configLoaded,
        Ev.errGeneric (excMsg (PyExc.keyError "data"))]) ∧
    (∀ ds kf, c.dataSec = some ds → ds.knowledge_file = some kf →
      w.fileExists kf = true → c.ragSec = none →
      mainRun w = [Ev.banner, Ev.configLoaded,
        Ev.errGeneric (excMsg (PyExc.keyError "rag"))]) := by
  constructor
  · intro hd
    simp [mainRun, hcfg, setup_rag_system, getKnowledgeFile, pyGet, hd, bind, Except.bind,
      excMsg]
  · intro ds kf hd hk hex hr
    simp [mainRun, hcfg, setup_rag_system, getKnowledgeFile, buildPipeline, pyGet,
      hd, hk, hex, hr, bind, Except.bind, excMsg]

/-- Witness world for C10: valid document with no "data" section. -/
def w10a : World :=
  { configFile := .valid docNoData, fileExists := fun _ => true, readFile := fun _ => "",
    indexBuild := fun _ => .ok (), ans := fun _ _ => .ok "yo", inputs := ["hi"] }

/-- Witness world for C10: valid document with no "rag" section and a
present knowledge file. -/
def w10b : World :=
  { configFile := .valid docNoRag, fileExists := fun _ => true, readFile := fun _ => "",
    indexBuild := fun _ => .ok (), ans := fun _ _ => .ok "yo", inputs := ["hi"] }

/-- Witness for C10 at the missing keys "data" and "rag". -/
theorem missingKeyGenericError_witness :
    mainRun w10a = [Ev.banner, Ev.configLoaded,
      Ev.errGeneric (excMsg (PyExc.keyError "data"))] ∧
    mainRun w10b = [Ev.banner, Ev.configLoaded,
      Ev.errGeneric (excMsg (PyExc.keyError "rag"))] :=
  ⟨(missingKeyGenericError w10a docNoData rfl).1 rfl,
   (missingKeyGenericError w10b docNoRag rfl).2 { knowledge_file := some "kb.txt" }
     "kb.txt" rfl rfl rfl rfl⟩

end RagChatbot
